import Mathlib

/-!
Verification of the JalVaarta ocean-hazard reporting platform.

This file gives a shallow embedding, in Lean 4, of the parts of the code
that the specification talks about:

* the alert-zone clustering of verified hazard reports
  (`src/components/MapboxMap.tsx`, `calculateAlertZones`);
* the `ai-predictions` Supabase edge function
  (`supabase/functions/ai-predictions/index.ts`);
* the `generate-predictions` edge function
  (`supabase/functions/generate-predictions/index.ts`);
* the `weather-data` edge function
  (`supabase/functions/weather-data/index.ts`);
* the SQL schema and row-level-security policies
  (`supabase/migrations/*.sql`), and the React role gates
  (`PredictionAlerts.tsx`, `AIPredictions.tsx`, `AdminPanel.tsx`).

Numbers that JavaScript stores as IEEE doubles are modelled as exact
rationals (`ℚ`); the trigonometric distance computation is modelled over
the reals (`ℝ`).  Database and network effects are modelled by explicit
environments: a fallible call becomes an `Option`, a fallible write a
`Bool`-valued oracle.
-/

namespace JalVaarta

/-! ## JavaScript primitives used by the code -/

/-- JavaScript `a || b` applied to a number `a` already unwrapped from an
optional field (`undefined` becomes `none`): the result is `a` unless `a`
is absent or `0` (falsy), in which case it is `b`. -/
def jsOrNum (a : Option ℚ) (b : ℚ) : ℚ :=
  match a with
  | none => b
  | some x => if x = 0 then b else x

/-- JavaScript `s || d` for a string `s` that may be `undefined`: the
result is `s` unless `s` is absent or empty (falsy). -/
def jsOrStr (s : Option String) (d : String) : String :=
  match s with
  | none => d
  | some x => if x = "" then d else x

/-- JavaScript `Math.round`: round half toward positive infinity. -/
def jsRound (q : ℚ) : ℤ := ⌊q + 1 / 2⌋

/-- JavaScript `Math.floor`. -/
def jsFloor (q : ℚ) : ℤ := ⌊q⌋

open Real in
/-- JavaScript `Math.atan2 y x` on real (non-NaN, unsigned-zero) inputs. -/
noncomputable def jsAtan2 (y x : ℝ) : ℝ :=
  if 0 < x then arctan (y / x)
  else if x < 0 then
    (if 0 ≤ y then arctan (y / x) + π else arctan (y / x) - π)
  else
    (if 0 < y then π / 2 else if y < 0 then -(π / 2) else 0)

/-! ## Hazard reports and alert zones

`Report` is the shape of a row of the `reports` table as the map
component consumes it; only the fields read by `calculateAlertZones`
are modelled. -/

structure Report where
  id : String
  status : String
  latitude : ℚ
  longitude : ℚ
deriving DecidableEq

/-- An alert zone as built by `calculateAlertZones`: the `center`
array `[lng, lat]` is modelled by two named fields. -/
structure AlertZone where
  centerLng : ℚ
  centerLat : ℚ
  radius : ℚ
  reportCount : ℕ
  reports : List Report
deriving DecidableEq

/-- JavaScript `allReports.reduce((sum, r) => sum + f(r), 0)`. -/
def sumBy (f : Report → ℚ) (l : List Report) : ℚ :=
  l.foldl (fun s r => s + f r) 0

/-- The zone pushed for a group `all` of reports
(MapboxMap.tsx, lines 101–109): center is the componentwise mean,
radius is `RADIUS_KM * 1000` metres. -/
def mkZone (all : List Report) : AlertZone :=
  { centerLng := sumBy (fun r => r.longitude) all / all.length
  , centerLat := sumBy (fun r => r.latitude) all / all.length
  , radius := 50 * 1000
  , reportCount := all.length
  , reports := all }

/-- The `nearbyReports` filter for a seed `report`
(MapboxMap.tsx, lines 87–99), with the haversine test abstracted into
`near`: a candidate is rejected when already processed or equal (by id)
to the seed, and otherwise kept when `near` holds. -/
def nearbyOf (near : Report → Report → Bool) (verified : List Report)
    (processed : List String) (report : Report) : List Report :=
  verified.filter fun o =>
    !(processed.contains o.id || report.id == o.id) && near report o

/-- One iteration of the `verifiedReports.forEach` body
(MapboxMap.tsx, lines 85–112), acting on the accumulator
`(zones, processedReports)`. -/
def clusterStep (near : Report → Report → Bool) (verified : List Report)
    (acc : List AlertZone × List String) (report : Report) :
    List AlertZone × List String :=
  if acc.2.contains report.id then acc
  else
    let nearby := nearbyOf near verified acc.2 report
    if 1 ≤ nearby.length then
      (acc.1 ++ [mkZone (report :: nearby)],
       acc.2 ++ (report :: nearby).map (fun r => r.id))
    else acc

/-- The function `calculateAlertZones` (MapboxMap.tsx, lines 74–114): restrict to
reports with status verified, then scan them in order, growing the
zone list and the processed set. -/
def calculateAlertZones (near : Report → Report → Bool)
    (reports : List Report) : List AlertZone :=
  let verified := reports.filter fun r => r.status == "verified"
  (verified.foldl (clusterStep near verified) ([], [])).1

/-- The distance computation inlined in the `nearbyReports` filter
(MapboxMap.tsx, lines 89–97): degree-to-radian conversion, the
haversine intermediate `a`, `c = 2·atan2(√a, √(1−a))`, `6371·c`. -/
noncomputable def codeDistance (lat1 lng1 lat2 lng2 : ℝ) : ℝ :=
  let p1 := lat1 * Real.pi / 180
  let p2 := lat2 * Real.pi / 180
  let dLat := (lat2 - lat1) * Real.pi / 180
  let dLng := (lng2 - lng1) * Real.pi / 180
  let a := Real.sin (dLat / 2) ^ 2 +
    Real.cos p1 * Real.cos p2 * Real.sin (dLng / 2) ^ 2
  let c := 2 * jsAtan2 (Real.sqrt a) (Real.sqrt (1 - a))
  6371 * c

open Classical in
/-- The `distance <= RADIUS_KM` test between two reports, as the code
performs it. -/
noncomputable def codeNear (r o : Report) : Bool :=
  decide (codeDistance (r.latitude : ℝ) (r.longitude : ℝ)
    (o.latitude : ℝ) (o.longitude : ℝ) ≤ 50)

/-- Modelled from the spec: the classical haversine great-circle
distance with earth radius 6371 km,
`d = 2·R·arcsin √(hav Δφ + cos φ₁ · cos φ₂ · hav Δλ)` where
`hav θ = sin² (θ/2)` and latitudes/longitudes are converted from
degrees to radians. -/
noncomputable def specHaversine (lat1 lng1 lat2 lng2 : ℝ) : ℝ :=
  let p1 := lat1 * Real.pi / 180
  let p2 := lat2 * Real.pi / 180
  let dLat := (lat2 - lat1) * Real.pi / 180
  let dLng := (lng2 - lng1) * Real.pi / 180
  let hav : ℝ → ℝ := fun t => Real.sin (t / 2) ^ 2
  2 * 6371 * Real.arcsin (Real.sqrt (hav dLat + Real.cos p1 * Real.cos p2 * hav dLng))

open Classical in
/-- Modelled from the spec: two reports are near when their haversine
distance is at most 50 km. -/
noncomputable def specNear (r o : Report) : Bool :=
  decide (specHaversine (r.latitude : ℝ) (r.longitude : ℝ)
    (o.latitude : ℝ) (o.longitude : ℝ) ≤ 50)

/-- Modelled from the spec (claim C1): the pairwise scan.  Walk the
verified reports in order; a not-yet-processed report is grouped with
every other not-yet-processed verified report that is near it, and a
group with at least one partner is emitted, its members marked
processed. -/
def specScan (near : Report → Report → Bool) (pool : List Report) :
    List Report → List String → List (List Report)
  | [], _ => []
  | s :: rest, done =>
    if s.id ∈ done then specScan near pool rest done
    else
      let partners := pool.filter fun o =>
        decide (¬ o.id ∈ done ∧ ¬ o.id = s.id ∧ near s o = true)
      if partners.isEmpty then specScan near pool rest done
      else
        (s :: partners) ::
          specScan near pool rest (done ++ (s :: partners).map (fun r => r.id))

/-- Modelled from the spec (claim C1): the zone of a group — center the
arithmetic mean of the member coordinates, radius 50 km (stored in
metres, as the map consumes it). -/
def specZoneOf (g : List Report) : AlertZone :=
  { centerLng := (g.map (fun r => r.longitude)).sum / g.length
  , centerLat := (g.map (fun r => r.latitude)).sum / g.length
  , radius := 50 * 1000
  , reportCount := g.length
  , reports := g }

/-- Modelled from the spec (claim C1): restrict to reports whose status
is verified, cluster them by the pairwise haversine scan, and turn
each group into an alert zone. -/
noncomputable def alertZonesSpec (reports : List Report) : List AlertZone :=
  let verified := reports.filter fun r => decide (r.status = "verified")
  (specScan specNear verified verified []).map specZoneOf

/-! ## The `ai-predictions` edge function

The handler draws seven random factors, overrides some of them by a
switch on the location name, and computes the two weighted risks.  The
random draws (`Math.random()` calls) are inputs of the model: `f` holds
the seven factor draws, `confRand` the draw used for the confidence
score. -/

structure PredictionFactors where
  seismic_activity : ℚ
  weather_conditions : ℚ
  historical_data : ℚ
  ocean_current : ℚ
  rainfall : ℚ
  elevation : ℚ
  population_density : ℚ
deriving DecidableEq

/-- The `switch (location_name)` block (ai-predictions/index.ts,
lines 38–90): India-specific coastal adjustments, the default case
keeping the random values. -/
def adjustFactors (location_name : String) (f : PredictionFactors) :
    PredictionFactors :=
  if location_name = "Chennai" ∨ location_name = "Cuddalore" ∨
      location_name = "Nagapattinam" ∨ location_name = "Rameswaram" then
    { f with historical_data := 0.85, seismic_activity := 0.7, ocean_current := 0.8 }
  else if location_name = "Kanyakumari" ∨ location_name = "Tuticorin" ∨
      location_name = "Kochi" then
    { f with historical_data := 0.75, seismic_activity := 0.6, ocean_current := 0.9 }
  else if location_name = "Port Blair" ∨ location_name = "Kavaratti" then
    { f with historical_data := 0.8, weather_conditions := 0.8, ocean_current := 0.9 }
  else if location_name = "Mumbai" ∨ location_name = "Goa" then
    { f with historical_data := 0.6, weather_conditions := 0.7, population_density := 0.8 }
  else if location_name = "Kolkata" ∨ location_name = "Visakhapatnam" then
    { f with historical_data := 0.5, rainfall := 0.7, weather_conditions := 0.6 }
  else if location_name = "Mangalore" ∨ location_name = "Kozhikode" then
    { f with historical_data := 0.4, weather_conditions := 0.8, ocean_current := 0.7 }
  else f

/-- The weighted tsunami risk (ai-predictions/index.ts, lines 93–98).
The JavaScript `x || 0` guards are identities here because every factor
is a number. -/
def tsunamiRisk (f : PredictionFactors) : ℚ :=
  (f.seismic_activity * 0.4 + f.weather_conditions * 0.3 +
   f.historical_data * 0.2 + f.ocean_current * 0.1) * 100

/-- The weighted flood risk (ai-predictions/index.ts, lines 101–106). -/
def floodRisk (f : PredictionFactors) : ℚ :=
  (f.rainfall * 0.5 + f.weather_conditions * 0.3 +
   f.elevation * 0.1 + f.population_density * 0.1) * 100

/-- The nested conditional assigning `riskLevel`
(ai-predictions/index.ts, lines 112–119). -/
def riskLevelStr (primaryRisk : ℚ) : String :=
  if 80 < primaryRisk then "critical"
  else if 60 < primaryRisk then "high"
  else if 30 < primaryRisk then "medium"
  else "low"

/-- A row of the `predictions` array returned by `ai-predictions`
(ai-predictions/index.ts, lines 121–134). -/
structure Prediction where
  hazard_type : String
  risk_level : String
  risk_score : ℚ
  latitude : ℚ
  longitude : ℚ
  location_name : String
  prediction_timeframe : String
  confidence_score : ℚ
  factors : PredictionFactors
  status : String
deriving DecidableEq

/-- An element of the `alerts` array returned by `ai-predictions`
(ai-predictions/index.ts, lines 138–150); the timestamp is not
modelled. -/
structure AlertOut where
  alert_level : String
  message : String
  affected_population : ℤ
  recommended_actions : List String
  is_active : Bool
deriving DecidableEq

structure AIResponse where
  predictions : List Prediction
  alerts : List AlertOut
deriving DecidableEq

/-- The body of the `ai-predictions` handler
(ai-predictions/index.ts, lines 24–167).

`externalFetch` models the ambient capability of issuing an outbound
HTTP request (the `fetch` primitive available to the handler).  The
handler body contains no `fetch` call at all — every value it returns
is computed from the request body, the random draws `f`/`confRand` and
the hardcoded location adjustments — so the parameter is never
consulted. -/
def aiPredictionsServe (externalFetch : String → Option String)
    (f : PredictionFactors) (confRand : ℚ)
    (latitude longitude : ℚ) (location_name : String) : AIResponse :=
  let pf := adjustFactors location_name f
  let tR := tsunamiRisk pf
  let fR := floodRisk pf
  let primaryHazard := if fR < tR then "tsunami" else "flood"
  let primaryRisk := max tR fR
  let riskLevel := riskLevelStr primaryRisk
  let predictions : List Prediction :=
    [ { hazard_type := primaryHazard
      , risk_level := riskLevel
      , risk_score := (jsRound (primaryRisk * 100) : ℚ) / 100
      , latitude := latitude
      , longitude := longitude
      , location_name := location_name
      , prediction_timeframe := "24h"
      , confidence_score := 75 + confRand * 20
      , factors := pf
      , status := "active" } ]
  let alerts : List AlertOut :=
    if 60 < primaryRisk then
      [ { alert_level := riskLevel
        , message := riskLevel.toUpper ++ " " ++ primaryHazard ++
            " risk detected at " ++ location_name ++ ". Immediate action required."
        , affected_population := jsFloor (pf.population_density * 100000)
        , recommended_actions :=
            [ "Evacuate low-lying areas", "Prepare emergency supplies"
            , "Monitor local authorities", "Follow evacuation routes" ]
        , is_active := true } ]
    else []
  ⟨predictions, alerts⟩

/-! ## The `generate-predictions` edge function -/

structure Location where
  name : String
  lat : ℚ
  lng : ℚ
deriving DecidableEq

/-- The list `indianCoastalLocations` (generate-predictions/index.ts,
lines 21–48). -/
def indianCoastalLocations : List Location :=
  [ ⟨"Mumbai", 19.076, 72.8777⟩
  , ⟨"Goa", 15.2993, 74.1240⟩
  , ⟨"Mangalore", 12.9141, 74.8560⟩
  , ⟨"Kochi", 9.9312, 76.2673⟩
  , ⟨"Kozhikode", 11.2588, 75.7804⟩
  , ⟨"Trivandrum", 8.5241, 76.9366⟩
  , ⟨"Chennai", 13.0827, 80.2707⟩
  , ⟨"Puducherry", 11.9416, 79.8083⟩
  , ⟨"Cuddalore", 11.7480, 79.7714⟩
  , ⟨"Nagapattinam", 10.7656, 79.8424⟩
  , ⟨"Rameswaram", 9.2876, 79.3129⟩
  , ⟨"Kanyakumari", 8.0883, 77.5385⟩
  , ⟨"Tuticorin", 8.7642, 78.1348⟩
  , ⟨"Kolkata", 22.5726, 88.3639⟩
  , ⟨"Visakhapatnam", 17.6868, 83.2185⟩
  , ⟨"Kakinada", 16.9891, 82.2475⟩
  , ⟨"Gopalpur", 19.2644, 84.8620⟩
  , ⟨"Puri", 19.8135, 85.8312⟩
  , ⟨"Paradip", 20.3163, 86.6114⟩
  , ⟨"Port Blair", 11.6234, 92.7265⟩
  , ⟨"Kavaratti", 10.5667, 72.6167⟩ ]

/-- What the call invoking the ai-predictions function yields for a
location: `none` models the `error` branch (logged and skipped with
`continue`), `some` the returned `data`. -/
structure GenEnv where
  invoke : Location → Option AIResponse
  upsertOk : Prediction → Bool
  insertOk : AlertOut → Bool

/-- One iteration of the `for (const location of indianCoastalLocations)`
loop (generate-predictions/index.ts, lines 53–98): on invoke error the
location is skipped; otherwise each prediction is upserted and each
alert inserted, and those whose write reported no error are pushed onto
the running arrays. -/
def processLocation (env : GenEnv)
    (acc : List Prediction × List AlertOut) (loc : Location) :
    List Prediction × List AlertOut :=
  match env.invoke loc with
  | none => acc
  | some data =>
    let newPreds :=
      if 0 < data.predictions.length then data.predictions.filter env.upsertOk
      else []
    let newAlerts :=
      if 0 < data.alerts.length then data.alerts.filter env.insertOk
      else []
    (acc.1 ++ newPreds, acc.2 ++ newAlerts)

/-- The response of `generate-predictions`
(generate-predictions/index.ts, lines 100–110). -/
structure GenResponse where
  success : Bool
  predictions_generated : ℕ
  alerts_generated : ℕ
deriving DecidableEq

/-- The whole `generate-predictions` run: the final response together
with the lists of predictions and alerts actually persisted, in the
order they were written. -/
def generatePredictions (env : GenEnv) :
    GenResponse × List Prediction × List AlertOut :=
  let acc := indianCoastalLocations.foldl (processLocation env) ([], [])
  ({ success := true
   , predictions_generated := acc.1.length
   , alerts_generated := acc.2.length }, acc.1, acc.2)

/-- The predictions persisted for a single location. -/
def locPreds (env : GenEnv) (loc : Location) : List Prediction :=
  match env.invoke loc with
  | none => []
  | some data =>
    if 0 < data.predictions.length then data.predictions.filter env.upsertOk
    else []

/-- The alerts persisted for a single location. -/
def locAlerts (env : GenEnv) (loc : Location) : List AlertOut :=
  match env.invoke loc with
  | none => []
  | some data =>
    if 0 < data.alerts.length then data.alerts.filter env.insertOk
    else []

/-- The pipeline in which `generate-predictions` invokes the
`ai-predictions` handler of this repository for every location:
`rand`/`conf` give the per-location random draws, `u`/`a` the
per-row write outcomes, `ext` the ambient external-fetch capability
threaded to the handler. -/
def generateRun (ext : String → Option String)
    (rand : String → PredictionFactors) (conf : String → ℚ)
    (u : Prediction → Bool) (a : AlertOut → Bool) :
    GenResponse × List Prediction × List AlertOut :=
  generatePredictions
    { invoke := fun loc =>
        some (aiPredictionsServe ext (rand loc.name) (conf loc.name)
          loc.lat loc.lng loc.name)
    , upsertOk := u
    , insertOk := a }

/-! ## The `weather-data` edge function -/

/-- The upstream OpenWeatherMap response, as the handler reads it
(weather-data/index.ts, lines 27–44).  `rain1h`/`snow1h` model the
optional `rain?.["1h"]` / `snow?.["1h"]` fields, `message` the optional
error message. -/
structure UpstreamWeather where
  cod : ℤ
  message : Option String
  temp : ℚ
  humidity : ℚ
  pressure : ℚ
  wind_speed : ℚ
  wind_deg : ℚ
  visibility : ℚ
  rain1h : Option ℚ
  snow1h : Option ℚ
  weather_main : String
  weather_description : String
deriving DecidableEq

/-- The `processedData` object (weather-data/index.ts, lines 33–44);
the timestamp is not modelled. -/
structure ProcessedWeather where
  temperature : ℚ
  humidity : ℚ
  pressure : ℚ
  wind_speed : ℚ
  wind_direction : ℚ
  visibility : ℚ
  precipitation : ℚ
  weather_condition : String
  weather_description : String
deriving DecidableEq

inductive WeatherBody where
  | errBody (message : String)
  | okBody (data : ProcessedWeather)
deriving DecidableEq

structure HttpAnswer where
  status : ℕ
  body : WeatherBody
deriving DecidableEq

/-- The `weather-data` handler (weather-data/index.ts, lines 14–54).
`apiKey` is `Deno.env.get("OPENWEATHER_API_KEY")`; the JavaScript
`if (!OPENWEATHER_API_KEY)` treats the empty string as missing.  A
thrown error is caught and returned as status 500 with the message in
the JSON body; the success response carries the default status 200. -/
def weatherDataServe (apiKey : Option String) (w : UpstreamWeather) :
    HttpAnswer :=
  if apiKey = none ∨ apiKey = some "" then
    ⟨500, .errBody "OpenWeatherMap API key not configured"⟩
  else if w.cod ≠ 200 then
    ⟨500, .errBody (jsOrStr w.message "Weather API error")⟩
  else
    ⟨200, .okBody
      { temperature := w.temp
      , humidity := w.humidity
      , pressure := w.pressure
      , wind_speed := w.wind_speed
      , wind_direction := w.wind_deg
      , visibility := w.visibility / 1000
      , precipitation := jsOrNum w.rain1h (jsOrNum w.snow1h 0)
      , weather_condition := w.weather_main
      , weather_description := w.weather_description }⟩

/-- Modelled from the spec (claim C10): return 500 with the error
message when the key is not configured or the upstream code is not 200;
otherwise return the processed fields with visibility converted from
metres to kilometres and precipitation the 1-hour rain value, or
failing that the 1-hour snow value, defaulting to 0 when both are
absent (a present-but-zero value falls through, as a falsy value). -/
def weatherDataSpec (apiKey : Option String) (w : UpstreamWeather) :
    HttpAnswer :=
  if apiKey = none ∨ apiKey = some "" then
    ⟨500, .errBody "OpenWeatherMap API key not configured"⟩
  else if w.cod = 200 then
    ⟨200, .okBody
      { temperature := w.temp
      , humidity := w.humidity
      , pressure := w.pressure
      , wind_speed := w.wind_speed
      , wind_direction := w.wind_deg
      , visibility := w.visibility / 1000
      , precipitation :=
          match w.rain1h, w.snow1h with
          | some r, some s => if r = 0 then (if s = 0 then 0 else s) else r
          | some r, none => r
          | none, some s => if s = 0 then 0 else s
          | none, none => 0
      , weather_condition := w.weather_main
      , weather_description := w.weather_description }⟩
  else
    ⟨500, .errBody (match w.message with
      | none => "Weather API error"
      | some m => if m = "" then "Weather API error" else m)⟩

/-! ## Row-level security for report updates

The two permissive `FOR UPDATE` policies on `public.reports`
(migration 20250919162422, lines 85–99).  Permissive policies combine
with `OR`; a policy without `WITH CHECK` applies its `USING` expression
to the updated row as well.  So an `UPDATE` of a report row is allowed
iff the old row passes the `USING` of some policy and the new row passes
the check of some policy. -/

structure ProfileRow where
  id : String
  user_id : String
  name : String
  role : String
deriving DecidableEq

structure ReportRow where
  id : String
  user_id : String
  status : String
deriving DecidableEq

/-- The policy expression `EXISTS (SELECT 1 FROM public.profiles WHERE user_id = auth.uid()
AND role IN (analyst, disaster_manager))` from the migration. -/
def isAnalystOrManager (profiles : List ProfileRow) (uid : String) : Bool :=
  profiles.any fun p =>
    p.user_id == uid && (p.role == "analyst" || p.role == "disaster_manager")

/-- Whether row-level security lets user `uid` run an `UPDATE` turning
report row `oldRow` into `newRow`: the `OR` of the `USING` clauses of
the two policies on the old row, and the `OR` of their (defaulted)
checks on the new row. -/
def rlsCanUpdateReport (profiles : List ProfileRow) (uid : String)
    (oldRow newRow : ReportRow) : Bool :=
  ((uid == oldRow.user_id) || isAnalystOrManager profiles uid) &&
  ((uid == newRow.user_id) || isAnalystOrManager profiles uid)

/-! ## The declared schema

A digest of the two migration files: for each table the unique column
sets (primary key and `UNIQUE` columns), the plain indexes, whether row
level security is enabled, and the foreign keys. -/

structure ForeignKeySpec where
  column : String
  refTable : String
  onDeleteCascade : Bool
deriving DecidableEq

structure TableSpec where
  tname : String
  uniqueColumnSets : List (List String)
  plainIndexes : List (List String)
  rlsEnabled : Bool
  foreignKeys : List ForeignKeySpec
deriving DecidableEq

/-- Table `public.profiles` (migration 20250919162422, lines 14–21, 54). -/
def profilesTable : TableSpec :=
  { tname := "profiles"
  , uniqueColumnSets := [["id"], ["user_id"]]
  , plainIndexes := []
  , rlsEnabled := true
  , foreignKeys := [⟨"user_id", "auth.users", true⟩] }

/-- Table `public.reports` (migration 20250919162422, lines 24–38, 55). -/
def reportsTable : TableSpec :=
  { tname := "reports"
  , uniqueColumnSets := [["id"]]
  , plainIndexes := []
  , rlsEnabled := true
  , foreignKeys := [⟨"user_id", "auth.users", true⟩, ⟨"verified_by", "auth.users", false⟩] }

/-- Table `public.social_media_posts` (migration 20250919162422, lines 41–51, 56). -/
def socialMediaPostsTable : TableSpec :=
  { tname := "social_media_posts"
  , uniqueColumnSets := [["id"]]
  , plainIndexes := []
  , rlsEnabled := true
  , foreignKeys := [] }

/-- Table `public.predictions` (migration 0250125000000, lines 7–23, 55,
111–114). -/
def predictionsTable : TableSpec :=
  { tname := "predictions"
  , uniqueColumnSets := [["id"]]
  , plainIndexes :=
      [["latitude", "longitude"], ["hazard_type"], ["risk_level"], ["created_at"]]
  , rlsEnabled := true
  , foreignKeys := [] }

/-- Table `public.prediction_alerts` (migration 0250125000000, lines 26–37,
56). -/
def predictionAlertsTable : TableSpec :=
  { tname := "prediction_alerts"
  , uniqueColumnSets := [["id"]]
  , plainIndexes := []
  , rlsEnabled := true
  , foreignKeys := [⟨"prediction_id", "predictions", true⟩, ⟨"acknowledged_by", "auth.users", false⟩] }

def schemaTables : List TableSpec :=
  [profilesTable, reportsTable, socialMediaPostsTable, predictionsTable,
   predictionAlertsTable]

/-- The `onConflict` target of the upsert in `generate-predictions`
(generate-predictions/index.ts, line 74). -/
def upsertConflictTarget : List String := ["latitude", "longitude", "hazard_type"]

/-- Two column lists name the same column set. -/
def sameColumnSet (a b : List String) : Bool :=
  a.all (fun c => b.contains c) && b.all (fun c => a.contains c)

/-- Postgres accepts `ON CONFLICT (cols…)` only when some unique index
or constraint covers exactly that column set. -/
def onConflictSupported (t : TableSpec) (target : List String) : Bool :=
  t.uniqueColumnSets.any fun s => sameColumnSet s target

/-! ## Dynamic behaviour of the schema

A small state machine over the declared constraints: inserts are
rejected when a primary-key, unique or `NOT NULL` foreign-key
constraint would be violated, deletes cascade as declared, and the
`on_auth_user_created` trigger inserts the citizen profile row of a
freshly registered auth user. -/

structure PredictionRow where
  id : String
deriving DecidableEq

structure PredictionAlertRow where
  id : String
  prediction_id : String
deriving DecidableEq

structure DBState where
  users : List String
  profiles : List ProfileRow
  reports : List ReportRow
  predictions : List PredictionRow
  prediction_alerts : List PredictionAlertRow
deriving DecidableEq

def DBState.empty : DBState := ⟨[], [], [], [], []⟩

inductive DBOp where
  /-- Insert into `auth.users`; the `on_auth_user_created` trigger
  (migration 20250919162422, lines 139–158) then inserts a profile row
  for the new user with role citizen. -/
  | registerUser (uid pid pname : String)
  /-- A direct insert into `public.profiles` (the
  "Users can insert their own profile" policy path). -/
  | insertProfile (p : ProfileRow)
  | insertReport (r : ReportRow)
  | insertPrediction (p : PredictionRow)
  | insertAlert (a : PredictionAlertRow)
  /-- Delete from `public.predictions`; `prediction_alerts` rows cascade
  (`ON DELETE CASCADE`, migration 0250125000000, line 28). -/
  | deletePrediction (pid : String)
  /-- Delete from `auth.users`; `profiles` and `reports` rows cascade
  (`ON DELETE CASCADE`, migration 20250919162422, lines 16 and 26). -/
  | deleteUser (uid : String)
  /-- The role update on a profile performed by the admin panel. -/
  | updateProfileRole (uid role : String)

/-- One database operation against the declared constraints.  An
operation that would violate a constraint leaves the state unchanged
(the statement errors). -/
def dbStep (s : DBState) : DBOp → DBState
  | .registerUser uid pid pname =>
    if uid ∈ s.users ∨ pid ∈ s.profiles.map (fun p => p.id) ∨
        uid ∈ s.profiles.map (fun p => p.user_id) then s
    else
      { s with users := uid :: s.users
             , profiles := ⟨pid, uid, pname, "citizen"⟩ :: s.profiles }
  | .insertProfile p =>
    if p.user_id ∈ s.users ∧ ¬ p.id ∈ s.profiles.map (fun q => q.id) ∧
        ¬ p.user_id ∈ s.profiles.map (fun q => q.user_id) then
      { s with profiles := p :: s.profiles }
    else s
  | .insertReport r =>
    if r.user_id ∈ s.users ∧ ¬ r.id ∈ s.reports.map (fun q => q.id) then
      { s with reports := r :: s.reports }
    else s
  | .insertPrediction p =>
    if ¬ p.id ∈ s.predictions.map (fun q => q.id) then
      { s with predictions := p :: s.predictions }
    else s
  | .insertAlert a =>
    if a.prediction_id ∈ s.predictions.map (fun q => q.id) ∧
        ¬ a.id ∈ s.prediction_alerts.map (fun q => q.id) then
      { s with prediction_alerts := a :: s.prediction_alerts }
    else s
  | .deletePrediction pid =>
    { s with predictions := s.predictions.filter (fun q => ¬ q.id = pid)
           , prediction_alerts :=
               s.prediction_alerts.filter (fun q => ¬ q.prediction_id = pid) }
  | .deleteUser uid =>
    { s with users := s.users.filter (fun u => ¬ u = uid)
           , profiles := s.profiles.filter (fun p => ¬ p.user_id = uid)
           , reports := s.reports.filter (fun r => ¬ r.user_id = uid) }
  | .updateProfileRole uid role =>
    { s with profiles := s.profiles.map fun p =>
        if p.user_id = uid then { p with role := role } else p }

def dbRun (ops : List DBOp) : DBState :=
  ops.foldl dbStep DBState.empty

/-- The referential and cardinality invariant of claim C9: every alert
references an existing prediction, every report and every profile
references an existing auth user, and every auth user has exactly one
profile row. -/
def dbInvariant (s : DBState) : Prop :=
  (∀ a ∈ s.prediction_alerts, a.prediction_id ∈ s.predictions.map (fun q => q.id)) ∧
  (∀ r ∈ s.reports, r.user_id ∈ s.users) ∧
  (∀ p ∈ s.profiles, p.user_id ∈ s.users) ∧
  (∀ u ∈ s.users, (s.profiles.countP (fun p => p.user_id = u)) = 1)

/-! ## Role-gated user interface controls

Each gate reads `profile?.role` where `profile` may be `null`; the
optional chaining makes the comparison false when it is. -/

/-- The Acknowledge button gate (PredictionAlerts.tsx, line 109):
the role is compared against analyst and disaster_manager. -/
def acknowledgeButtonRendered (profile : Option ProfileRow) : Bool :=
  match profile with
  | none => false
  | some p => p.role == "analyst" || p.role == "disaster_manager"

/-- The Generate New Predictions button gate (AIPredictions.tsx,
line 504). -/
def generateButtonRendered (profile : Option ProfileRow) : Bool :=
  match profile with
  | none => false
  | some p => p.role == "analyst" || p.role == "disaster_manager"

/-- The flag `isAdmin` in the admin panel (AdminPanel.tsx, line 54); when it is
false the page renders only the Access Denied card (line 160), so the
management actions render exactly when it is true. -/
def adminPanelIsAdmin (profile : Option ProfileRow) : Bool :=
  match profile with
  | none => false
  | some p => p.role == "analyst" || p.role == "disaster_manager"

/-! ## Proof infrastructure -/

/-- The invariant carried by the `(zones, processedReports)` accumulator
of the clustering scan: every zone has at least two members, members
come from the verified pool and are marked processed, distinct zones
have disjoint report ids, and every member has a near partner in the
pool (in one direction or the other). -/
def ZoneAcc (near : Report → Report → Bool) (verified : List Report)
    (acc : List AlertZone × List String) : Prop :=
  (∀ z ∈ acc.1, 2 ≤ z.reports.length) ∧
  (∀ z ∈ acc.1, ∀ m ∈ z.reports, m ∈ verified) ∧
  (∀ z ∈ acc.1, ∀ m ∈ z.reports, m.id ∈ acc.2) ∧
  List.Pairwise
    (fun z w => ∀ m ∈ z.reports, ∀ m2 ∈ w.reports, ¬ m.id = m2.id) acc.1 ∧
  (∀ z ∈ acc.1, ∀ m ∈ z.reports,
    (∃ o ∈ verified, ¬ o.id = m.id ∧ near m o = true) ∨
    (∃ s ∈ verified, ¬ s.id = m.id ∧ near s m = true))

/-! # Theorems -/

theorem string_beq_decide (a b : String) : (a == b) = decide (a = b) := by
  by_cases h : a = b <;> simp [h]

theorem contains_decide (l : List String) (a : String) :
    l.contains a = decide (a ∈ l) := by
  by_cases h : a ∈ l <;> simp [h, List.elem_iff]

theorem sumBy_eq_foldl (f : Report → ℚ) :
    ∀ (l : List Report) (a : ℚ),
      l.foldl (fun s r => s + f r) a = a + (l.map f).sum := by
  intro l
  induction l with
  | nil => intro a; simp
  | cons x xs ih =>
    intro a
    simp only [List.foldl_cons, List.map_cons, List.sum_cons, ih]
    ring

theorem sumBy_eq_sum (f : Report → ℚ) (l : List Report) :
    sumBy f l = (l.map f).sum := by
  unfold sumBy
  rw [sumBy_eq_foldl]
  ring

theorem mkZone_eq_specZoneOf (g : List Report) : mkZone g = specZoneOf g := by
  unfold mkZone specZoneOf
  rw [sumBy_eq_sum, sumBy_eq_sum]

theorem jsAtan2_sqrt_arcsin (t : ℝ) :
    jsAtan2 (Real.sqrt t) (Real.sqrt (1 - t)) = Real.arcsin (Real.sqrt t) := by
  rcases le_or_lt t 0 with h | h
  · have ht : Real.sqrt t = 0 := Real.sqrt_eq_zero'.mpr h
    have h1t : 0 < Real.sqrt (1 - t) := Real.sqrt_pos.mpr (by linarith)
    rw [ht]
    unfold jsAtan2
    rw [if_pos h1t]
    simp [Real.arcsin_zero]
  · rcases lt_or_le t 1 with h2 | h2
    · have hx : 0 < Real.sqrt (1 - t) := Real.sqrt_pos.mpr (by linarith)
      unfold jsAtan2
      rw [if_pos hx]
      have hmem : Real.sqrt t ∈ Set.Ioo (-(1 : ℝ)) 1 := by
        constructor
        · have := Real.sqrt_nonneg t
          linarith
        · exact (Real.sqrt_lt' one_pos).mpr (by linarith)
      rw [Real.arcsin_eq_arctan hmem, Real.sq_sqrt h.le]
    · have h0 : Real.sqrt (1 - t) = 0 := Real.sqrt_eq_zero'.mpr (by linarith)
      have hy : 0 < Real.sqrt t := Real.sqrt_pos.mpr (by linarith)
      have h1 : (1 : ℝ) ≤ Real.sqrt t :=
        (Real.le_sqrt' one_pos).mpr (by rw [one_pow]; exact h2)
      unfold jsAtan2
      rw [h0, Real.arcsin_of_one_le h1]
      simp [hy, lt_irrefl]

/-- The central angle `2·atan2(√a, √(1−a))` of the code coincides with the
classical haversine `2·arcsin √a`, so the inlined distance is the
haversine distance with earth radius 6371 km. -/
theorem codeDistance_eq_specHaversine (lat1 lng1 lat2 lng2 : ℝ) :
    codeDistance lat1 lng1 lat2 lng2 = specHaversine lat1 lng1 lat2 lng2 := by
  unfold codeDistance specHaversine
  simp only [jsAtan2_sqrt_arcsin]
  ring

theorem codeNear_eq_specNear : codeNear = specNear := by
  funext r o
  unfold codeNear specNear
  exact decide_eq_decide.mpr (by rw [codeDistance_eq_specHaversine])

theorem nearby_pred_eq (near : Report → Report → Bool) (done : List String)
    (s o : Report) :
    (!(done.contains o.id || s.id == o.id) && near s o) =
      decide (¬ o.id ∈ done ∧ ¬ o.id = s.id ∧ near s o = true) := by
  rw [contains_decide, string_beq_decide]
  by_cases h1 : o.id ∈ done <;> by_cases h2 : o.id = s.id <;>
    cases h3 : near s o
  all_goals
    have h2x : (s.id = o.id) ↔ (o.id = s.id) := eq_comm
    simp [h1, h2, h3, h2x]

theorem nearbyOf_eq_partners (near : Report → Report → Bool)
    (pool : List Report) (done : List String) (s : Report) :
    nearbyOf near pool done s =
      pool.filter (fun o => decide (¬ o.id ∈ done ∧ ¬ o.id = s.id ∧ near s o = true)) := by
  unfold nearbyOf
  congr 1
  funext o
  exact nearby_pred_eq near done s o

theorem foldl_clusterStep_eq (near : Report → Report → Bool)
    (pool : List Report) :
    ∀ (iter : List Report) (zones : List AlertZone) (done : List String),
      (iter.foldl (clusterStep near pool) (zones, done)).1 =
        zones ++ (specScan near pool iter done).map specZoneOf := by
  intro iter
  induction iter with
  | nil => intro zones done; simp [specScan]
  | cons s rest ih =>
    intro zones done
    rw [List.foldl_cons]
    set partners :=
      pool.filter (fun o => decide (¬ o.id ∈ done ∧ ¬ o.id = s.id ∧ near s o = true))
      with hp
    by_cases hdone : s.id ∈ done
    · have hstep : clusterStep near pool (zones, done) s = (zones, done) := by
        unfold clusterStep
        rw [contains_decide, decide_eq_true hdone]
        simp
      rw [hstep, ih]
      simp only [specScan]
      rw [if_pos hdone]
    · by_cases hemp : partners.isEmpty
      · have hlen : ¬ 1 ≤ partners.length := by
          rw [List.isEmpty_iff_length_eq_zero] at hemp
          omega
        have hstep : clusterStep near pool (zones, done) s = (zones, done) := by
          unfold clusterStep
          rw [contains_decide, decide_eq_false hdone]
          simp only [Bool.false_eq_true, if_false]
          rw [nearbyOf_eq_partners, ← hp, if_neg hlen]
        rw [hstep, ih]
        simp only [specScan]
        rw [if_neg hdone, ← hp, if_pos hemp]
      · have hlen : 1 ≤ partners.length := by
          rcases hq : partners with _ | ⟨a, l⟩
          · rw [hq] at hemp
            simp [List.isEmpty] at hemp
          · simp
        have hstep : clusterStep near pool (zones, done) s =
            (zones ++ [mkZone (s :: partners)],
             done ++ (s :: partners).map (fun r => r.id)) := by
          unfold clusterStep
          rw [contains_decide, decide_eq_false hdone]
          simp only [Bool.false_eq_true, if_false]
          rw [nearbyOf_eq_partners, ← hp, if_pos hlen]
        rw [hstep, ih]
        simp only [specScan]
        rw [if_neg hdone, ← hp, if_neg hemp]
        rw [mkZone_eq_specZoneOf]
        simp [List.append_assoc]

/-- C1: For every list of reports, `calculateAlertZones` — run with
the distance test the code inlines (degree conversion, haversine
intermediate, `2·atan2(√a, √(1−a))`, radius 6371) — produces exactly
the zones described by the specification: restrict to reports whose
status is verified, group every not-yet-processed verified report
with every other not-yet-processed verified report whose haversine
great-circle distance (earth radius 6371 km) is at most 50 km, and turn
each group into one alert zone centred at the arithmetic mean of the
member coordinates with radius 50 km. -/
theorem calculateAlertZones_matches_spec (reports : List Report) :
    calculateAlertZones codeNear reports = alertZonesSpec reports := by
  unfold calculateAlertZones alertZonesSpec
  have hfilter : (fun r : Report => r.status == "verified") =
      (fun r : Report => decide (r.status = "verified")) := by
    funext r
    exact string_beq_decide r.status "verified"
  rw [hfilter, codeNear_eq_specNear]
  rw [foldl_clusterStep_eq]
  simp

theorem mem_nearbyOf {near : Report → Report → Bool} {pool : List Report}
    {done : List String} {s o : Report} :
    o ∈ nearbyOf near pool done s ↔
      o ∈ pool ∧ ¬ o.id ∈ done ∧ ¬ s.id = o.id ∧ near s o = true := by
  unfold nearbyOf
  rw [List.mem_filter]
  constructor
  · rintro ⟨hmem, hcond⟩
    refine ⟨hmem, ?_, ?_, ?_⟩ <;>
      [skip; skip; skip] <;>
      · rw [contains_decide, string_beq_decide] at hcond
        rcases Bool.and_eq_true_iff.mp hcond with ⟨hnot, hnear⟩
        rw [Bool.not_eq_true', Bool.or_eq_false_iff] at hnot
        first
          | exact of_decide_eq_false hnot.1
          | exact of_decide_eq_false hnot.2
          | exact hnear
  · rintro ⟨hmem, h1, h2, h3⟩
    refine ⟨hmem, ?_⟩
    rw [contains_decide, string_beq_decide, h3]
    rw [decide_eq_false h1, decide_eq_false h2]
    rfl

theorem zoneAcc_init (near : Report → Report → Bool)
    (verified : List Report) : ZoneAcc near verified ([], []) := by
  unfold ZoneAcc
  refine ⟨?_, ?_, ?_, ?_, ?_⟩ <;> simp

theorem zoneAcc_step (near : Report → Report → Bool)
    (verified : List Report) (acc : List AlertZone × List String)
    (r : Report) (hr : r ∈ verified) (h : ZoneAcc near verified acc) :
    ZoneAcc near verified (clusterStep near verified acc r) := by
  obtain ⟨hlen, hmem, hproc, hdisj, hnear⟩ := h
  unfold clusterStep
  by_cases hin : acc.2.contains r.id = true
  · rw [if_pos hin]
    exact ⟨hlen, hmem, hproc, hdisj, hnear⟩
  · rw [if_neg hin]
    have hrid : ¬ r.id ∈ acc.2 := by
      rw [contains_decide] at hin
      exact of_decide_eq_false (Bool.not_eq_true _ ▸ Bool.eq_false_iff.mpr hin)
    set nearby := nearbyOf near verified acc.2 r with hnb
    by_cases hone : 1 ≤ nearby.length
    · rw [if_pos hone]
      have hnbmem : ∀ o ∈ nearby,
          o ∈ verified ∧ ¬ o.id ∈ acc.2 ∧ ¬ r.id = o.id ∧ near r o = true :=
        fun o ho => mem_nearbyOf.mp (hnb ▸ ho)
      have hgrp : ∀ m ∈ r :: nearby, m ∈ verified := by
        intro m hm
        rcases List.mem_cons.mp hm with hm | hm
        · exact hm ▸ hr
        · exact (hnbmem m hm).1
      have hgrpid : ∀ m ∈ r :: nearby,
          m.id ∈ ((r :: nearby).map (fun q => q.id)) := by
        intro m hm
        exact List.mem_map.mpr ⟨m, hm, rfl⟩
      have hfresh : ∀ m ∈ r :: nearby, ¬ m.id ∈ acc.2 := by
        intro m hm
        rcases List.mem_cons.mp hm with hm | hm
        · exact hm ▸ hrid
        · exact (hnbmem m hm).2.1
      refine ⟨?_, ?_, ?_, ?_, ?_⟩
      · intro z hz
        rcases List.mem_append.mp hz with hz | hz
        · exact hlen z hz
        · rcases List.mem_singleton.mp hz with rfl
          unfold mkZone
          simp only [List.length_cons]
          omega
      · intro z hz
        rcases List.mem_append.mp hz with hz | hz
        · exact hmem z hz
        · rcases List.mem_singleton.mp hz with rfl
          exact hgrp
      · intro z hz m hm
        rcases List.mem_append.mp hz with hz | hz
        · exact List.mem_append_left _ (hproc z hz m hm)
        · rcases List.mem_singleton.mp hz with rfl
          exact List.mem_append_right _ (hgrpid m hm)
      · rw [List.pairwise_append]
        refine ⟨hdisj, List.pairwise_singleton _ _, ?_⟩
        intro z hz w hw m hmz m2 hm2
        rcases List.mem_singleton.mp hw with rfl
        intro hcontra
        exact hfresh m2 hm2 (hcontra ▸ hproc z hz m hmz)
      · intro z hz m hm
        rcases List.mem_append.mp hz with hz | hz
        · exact hnear z hz m hm
        · rcases List.mem_singleton.mp hz with rfl
          rcases List.mem_cons.mp hm with hm | hm
          · subst hm
            rcases hq : nearby with _ | ⟨o, l⟩
            · rw [hq] at hone
              simp at hone
            · have ho : o ∈ nearby := by rw [hq]; exact List.mem_cons_self o l
              obtain ⟨hov, _, hne, hno⟩ := hnbmem o ho
              exact Or.inl ⟨o, hov, fun e => hne e.symm, hno⟩
          · obtain ⟨_, _, hne, hno⟩ := hnbmem m hm
            exact Or.inr ⟨r, hr, hne, hno⟩
    · rw [if_neg hone]
      exact ⟨hlen, hmem, hproc, hdisj, hnear⟩

theorem zoneAcc_fold (near : Report → Report → Bool)
    (verified : List Report) :
    ∀ (l : List Report), (∀ x ∈ l, x ∈ verified) →
      ∀ acc, ZoneAcc near verified acc →
        ZoneAcc near verified (l.foldl (clusterStep near verified) acc) := by
  intro l
  induction l with
  | nil => intro _ acc h; exact h
  | cons x xs ih =>
    intro hsub acc h
    rw [List.foldl_cons]
    exact ih (fun y hy => hsub y (List.mem_cons_of_mem x hy))
      _ (zoneAcc_step near verified acc x (hsub x (List.mem_cons_self x xs)) h)

theorem zoneAcc_calculate (near : Report → Report → Bool)
    (reports : List Report) :
    ZoneAcc near (reports.filter fun r => r.status == "verified")
      (calculateAlertZones near reports, ((reports.filter fun r =>
        r.status == "verified").foldl (clusterStep near
          (reports.filter fun r => r.status == "verified")) ([], [])).2) := by
  have h := zoneAcc_fold near (reports.filter fun r => r.status == "verified")
    (reports.filter fun r => r.status == "verified") (fun x hx => hx)
    ([], []) (zoneAcc_init _ _)
  unfold calculateAlertZones
  exact h

/-- C8: For any distance test and any report list: distinct alert
zones never share a report id, every zone has at least two reports, every
report placed in a zone has status verified, and a report `r` that no
other verified report is near (in either direction of the test) appears
in no zone. -/
theorem alertZones_invariants (near : Report → Report → Bool)
    (reports : List Report) (r : Report)
    (hiso : ∀ o ∈ reports.filter (fun x => x.status == "verified"),
      ¬ o.id = r.id → near r o = false ∧ near o r = false) :
    List.Pairwise
      (fun z w => ∀ m ∈ z.reports, ∀ m2 ∈ w.reports, ¬ m.id = m2.id)
      (calculateAlertZones near reports) ∧
    (∀ z ∈ calculateAlertZones near reports, 2 ≤ z.reports.length) ∧
    (∀ z ∈ calculateAlertZones near reports, ∀ m ∈ z.reports,
      m.status = "verified") ∧
    (∀ z ∈ calculateAlertZones near reports, ¬ r ∈ z.reports) := by
  obtain ⟨hlen, hmem, _, hdisj, hnear⟩ := zoneAcc_calculate near reports
  refine ⟨hdisj, hlen, ?_, ?_⟩
  · intro z hz m hm
    have := hmem z hz m hm
    have hcond := (List.mem_filter.mp this).2
    rw [string_beq_decide] at hcond
    exact of_decide_eq_true hcond
  · intro z hz hcontra
    rcases hnear z hz r hcontra with ⟨o, ho, hne, htrue⟩ | ⟨s, hs, hne, htrue⟩
    · have := (hiso o ho hne).1
      rw [this] at htrue
      exact Bool.false_ne_true htrue
    · have := (hiso s hs hne).2
      rw [this] at htrue
      exact Bool.false_ne_true htrue

/-- Witness for C8 at a concrete input: one verified report, a distance
test that holds nowhere. -/
theorem alertZones_invariants_witness :
    List.Pairwise
      (fun z w => ∀ m ∈ z.reports, ∀ m2 ∈ w.reports, ¬ m.id = m2.id)
      (calculateAlertZones (fun _ _ => false)
        [⟨"a", "verified", 0, 0⟩, ⟨"b", "verified", 10, 10⟩]) ∧
    (∀ z ∈ calculateAlertZones (fun _ _ => false)
        [⟨"a", "verified", 0, 0⟩, ⟨"b", "verified", 10, 10⟩],
      2 ≤ z.reports.length) ∧
    (∀ z ∈ calculateAlertZones (fun _ _ => false)
        [⟨"a", "verified", 0, 0⟩, ⟨"b", "verified", 10, 10⟩],
      ∀ m ∈ z.reports, m.status = "verified") ∧
    (∀ z ∈ calculateAlertZones (fun _ _ => false)
        [⟨"a", "verified", 0, 0⟩, ⟨"b", "verified", 10, 10⟩],
      ¬ (⟨"a", "verified", 0, 0⟩ : Report) ∈ z.reports) :=
  alertZones_invariants (fun _ _ => false)
    [⟨"a", "verified", 0, 0⟩, ⟨"b", "verified", 10, 10⟩]
    ⟨"a", "verified", 0, 0⟩ (by decide)

theorem riskLevelStr_cases (x : ℚ) :
    (riskLevelStr x = "critical" ↔ 80 < x) ∧
    (riskLevelStr x = "high" ↔ 60 < x ∧ x ≤ 80) ∧
    (riskLevelStr x = "medium" ↔ 30 < x ∧ x ≤ 60) ∧
    (riskLevelStr x = "low" ↔ x ≤ 30) := by
  unfold riskLevelStr
  split_ifs with h1 h2 h3 <;>
    refine ⟨?_, ?_, ?_, ?_⟩ <;>
    simp <;>
    first
      | linarith
      | (intro h4; linarith)
      | (constructor <;> linarith)

/-- C7: Every `ai-predictions` request yields exactly one
prediction; its hazard type is tsunami exactly when the weighted
tsunami risk exceeds the weighted flood risk and flood otherwise;
the risk level partitions the primary risk at 80, 60 and 30; and the
response carries an alert exactly when the primary risk exceeds 60,
equivalently when the risk level is high or critical. -/
theorem aiPredictions_response_shape (ext : String → Option String)
    (f : PredictionFactors) (confRand lat lng : ℚ) (name : String) :
    (aiPredictionsServe ext f confRand lat lng name).predictions.length = 1 ∧
    ((aiPredictionsServe ext f confRand lat lng name).predictions.map
        (fun p => p.hazard_type) = ["tsunami"] ↔
      floodRisk (adjustFactors name f) < tsunamiRisk (adjustFactors name f)) ∧
    ((aiPredictionsServe ext f confRand lat lng name).predictions.map
        (fun p => p.hazard_type) = ["flood"] ↔
      tsunamiRisk (adjustFactors name f) ≤ floodRisk (adjustFactors name f)) ∧
    ((aiPredictionsServe ext f confRand lat lng name).predictions.map
        (fun p => p.risk_level) =
      [riskLevelStr (max (tsunamiRisk (adjustFactors name f))
        (floodRisk (adjustFactors name f)))]) ∧
    (riskLevelStr (max (tsunamiRisk (adjustFactors name f))
        (floodRisk (adjustFactors name f))) = "critical" ↔
      80 < max (tsunamiRisk (adjustFactors name f))
        (floodRisk (adjustFactors name f))) ∧
    (riskLevelStr (max (tsunamiRisk (adjustFactors name f))
        (floodRisk (adjustFactors name f))) = "high" ↔
      60 < max (tsunamiRisk (adjustFactors name f))
          (floodRisk (adjustFactors name f)) ∧
        max (tsunamiRisk (adjustFactors name f))
          (floodRisk (adjustFactors name f)) ≤ 80) ∧
    (riskLevelStr (max (tsunamiRisk (adjustFactors name f))
        (floodRisk (adjustFactors name f))) = "medium" ↔
      30 < max (tsunamiRisk (adjustFactors name f))
          (floodRisk (adjustFactors name f)) ∧
        max (tsunamiRisk (adjustFactors name f))
          (floodRisk (adjustFactors name f)) ≤ 60) ∧
    (riskLevelStr (max (tsunamiRisk (adjustFactors name f))
        (floodRisk (adjustFactors name f))) = "low" ↔
      max (tsunamiRisk (adjustFactors name f))
        (floodRisk (adjustFactors name f)) ≤ 30) ∧
    ((aiPredictionsServe ext f confRand lat lng name).alerts.length = 1 ↔
      60 < max (tsunamiRisk (adjustFactors name f))
        (floodRisk (adjustFactors name f))) ∧
    ((aiPredictionsServe ext f confRand lat lng name).alerts.length = 1 ↔
      riskLevelStr (max (tsunamiRisk (adjustFactors name f))
          (floodRisk (adjustFactors name f))) = "high" ∨
        riskLevelStr (max (tsunamiRisk (adjustFactors name f))
          (floodRisk (adjustFactors name f))) = "critical") := by
  obtain ⟨hc, hh, hm, hl⟩ := riskLevelStr_cases
    (max (tsunamiRisk (adjustFactors name f)) (floodRisk (adjustFactors name f)))
  have halert : (aiPredictionsServe ext f confRand lat lng name).alerts.length = 1 ↔
      60 < max (tsunamiRisk (adjustFactors name f))
        (floodRisk (adjustFactors name f)) := by
    dsimp only [aiPredictionsServe]
    split_ifs with h <;> simp [h]
  refine ⟨rfl, ?_, ?_, ?_, hc, hh, hm, hl, halert, ?_⟩
  · dsimp only [aiPredictionsServe]
    by_cases h : floodRisk (adjustFactors name f) < tsunamiRisk (adjustFactors name f) <;>
      simp [h]
  · dsimp only [aiPredictionsServe]
    by_cases h : floodRisk (adjustFactors name f) < tsunamiRisk (adjustFactors name f) <;>
      simp [h] <;> linarith
  · dsimp only [aiPredictionsServe]
    simp
  · rw [halert, hh, hc]
    constructor
    · intro h
      rcases le_or_lt (max (tsunamiRisk (adjustFactors name f))
          (floodRisk (adjustFactors name f))) 80 with h8 | h8
      · exact Or.inl ⟨h, h8⟩
      · exact Or.inr h8
    · rintro (⟨h, _⟩ | h) <;> linarith

theorem foldl_processLocation (env : GenEnv) :
    ∀ (l : List Location) (acc : List Prediction × List AlertOut),
      l.foldl (processLocation env) acc =
        (acc.1 ++ (l.map (locPreds env)).flatten,
         acc.2 ++ (l.map (locAlerts env)).flatten) := by
  intro l
  induction l with
  | nil => intro acc; simp
  | cons x xs ih =>
    intro acc
    rw [List.foldl_cons, ih]
    unfold processLocation locPreds locAlerts
    cases h : env.invoke x with
    | none => simp [h]
    | some data => simp [h, List.append_assoc]

/-- C2 counterexample: At the concrete request (`Chennai`, all random
draws zero) the `ai-predictions` result — hence the row
`generate-predictions` persists — is identical whatever any external
HTTP endpoint would answer, and its risk score 53 and risk level
medium are exactly the values of the weighted-sum algorithm defined
in this repository. -/
theorem aiPredictions_ignores_external_apis :
    aiPredictionsServe (fun u => some ("stub response " ++ u))
        ⟨0, 0, 0, 0, 0, 0, 0⟩ 0 13.0827 80.2707 "Chennai" =
      aiPredictionsServe (fun _ => none)
        ⟨0, 0, 0, 0, 0, 0, 0⟩ 0 13.0827 80.2707 "Chennai" ∧
    (aiPredictionsServe (fun _ => none)
        ⟨0, 0, 0, 0, 0, 0, 0⟩ 0 13.0827 80.2707 "Chennai").predictions.map
      (fun p => (p.risk_score, p.risk_level)) = [((53 : ℚ), "medium")] ∧
    (53 : ℚ) = (jsRound (max
        (tsunamiRisk (adjustFactors "Chennai" ⟨0, 0, 0, 0, 0, 0, 0⟩))
        (floodRisk (adjustFactors "Chennai" ⟨0, 0, 0, 0, 0, 0, 0⟩)) * 100) : ℚ) / 100 := by
  have h1 : tsunamiRisk (adjustFactors "Chennai" ⟨0, 0, 0, 0, 0, 0, 0⟩) = 53 := by
    simp only [adjustFactors, tsunamiRisk]
    norm_num
  have h2 : floodRisk (adjustFactors "Chennai" ⟨0, 0, 0, 0, 0, 0, 0⟩) = 0 := by
    simp only [adjustFactors, floodRisk]
    norm_num
  have hmax : max (tsunamiRisk (adjustFactors "Chennai" ⟨0, 0, 0, 0, 0, 0, 0⟩))
      (floodRisk (adjustFactors "Chennai" ⟨0, 0, 0, 0, 0, 0, 0⟩)) = 53 := by
    rw [h1, h2]
    exact max_eq_left (by norm_num)
  have hjr : jsRound ((53 : ℚ) * 100) = 5300 := by
    unfold jsRound
    rw [Int.floor_eq_iff]
    norm_num
  refine ⟨rfl, ?_, ?_⟩
  · dsimp only [aiPredictionsServe]
    rw [hmax, hjr]
    norm_num [riskLevelStr]
  · rw [hmax, hjr]
    norm_num

theorem all_persisted_of_invoke_all (check : Prediction → Bool) (env : GenEnv)
    (hres : ∀ loc data, env.invoke loc = some data →
      data.predictions.all check = true) :
    ∀ (l : List Location) (acc : List Prediction × List AlertOut),
      acc.1.all check = true →
      ((l.foldl (processLocation env) acc).1).all check = true := by
  intro l
  induction l with
  | nil => intro acc hacc; exact hacc
  | cons x xs ih =>
    intro acc hacc
    rw [List.foldl_cons]
    refine ih _ ?_
    unfold processLocation
    cases hx : env.invoke x with
    | none => exact hacc
    | some data =>
      simp only
      rw [List.all_append, hacc, Bool.true_and]
      have hall := hres x data hx
      by_cases hlen : 0 < data.predictions.length
      · rw [if_pos hlen]
        rw [List.all_eq_true] at hall ⊢
        intro p hp
        exact hall p (List.mem_of_mem_filter hp)
      · rw [if_neg hlen]
        rfl

/-- C2 amended: Every prediction row the `generate-predictions`
pipeline persists has a risk score and risk level computed by the
weighted-sum algorithm implemented in this repository from the stored
factors of the row itself, and the whole pipeline result is independent of
whatever any external HTTP endpoint would answer. -/
theorem generateRun_risk_locally_computed (ext : String → Option String)
    (rand : String → PredictionFactors) (conf : String → ℚ)
    (u : Prediction → Bool) (a : AlertOut → Bool) :
    generateRun ext rand conf u a = generateRun (fun _ => none) rand conf u a ∧
    ((generateRun ext rand conf u a).2.1).all
      (fun p =>
        p.risk_score ==
          ((jsRound (max (tsunamiRisk p.factors) (floodRisk p.factors) * 100) : ℚ) / 100)
        && p.risk_level ==
          riskLevelStr (max (tsunamiRisk p.factors) (floodRisk p.factors))) = true := by
  constructor
  · rfl
  · refine all_persisted_of_invoke_all _
      { invoke := fun loc => some (aiPredictionsServe ext (rand loc.name)
          (conf loc.name) loc.lat loc.lng loc.name)
      , upsertOk := u
      , insertOk := a } ?_ indianCoastalLocations ([], []) rfl
    intro loc data hd
    rcases Option.some.inj hd with rfl
    dsimp only [aiPredictionsServe]
    simp

/-- C6: the function `generate-predictions` walks exactly the 21 Indian coastal
locations in list order; a failed per-location invocation contributes
nothing and aborts nothing (the persisted lists decompose per location,
in order); the response always reports success, and its two counts are
the numbers of predictions and alerts actually persisted. -/
theorem generatePredictions_pipeline (env : GenEnv) :
    indianCoastalLocations.length = 21 ∧
    (generatePredictions env).1.success = true ∧
    (generatePredictions env).2.1 =
      (indianCoastalLocations.map (locPreds env)).flatten ∧
    (generatePredictions env).2.2 =
      (indianCoastalLocations.map (locAlerts env)).flatten ∧
    (∀ loc, env.invoke loc = none →
      locPreds env loc = [] ∧ locAlerts env loc = []) ∧
    (generatePredictions env).1.predictions_generated =
      (generatePredictions env).2.1.length ∧
    (generatePredictions env).1.alerts_generated =
      (generatePredictions env).2.2.length := by
  refine ⟨by decide, rfl, ?_, ?_, ?_, rfl, rfl⟩
  · unfold generatePredictions
    rw [foldl_processLocation]
    simp
  · unfold generatePredictions
    rw [foldl_processLocation]
    simp
  · intro loc hloc
    unfold locPreds locAlerts
    rw [hloc]
    exact ⟨rfl, rfl⟩

/-- Witness for C6 at a concrete environment in which every invocation
fails. -/
theorem generatePredictions_pipeline_witness :
    indianCoastalLocations.length = 21 :=
  (generatePredictions_pipeline
    ⟨fun _ => none, fun _ => true, fun _ => true⟩).1

/-- C10: The `weather-data` handler implements its specification:
500 with the error message when the key is unconfigured or the upstream
code is not 200, otherwise 200 with visibility divided by 1000 and
precipitation the rain-then-snow-then-zero fallback. -/
theorem weatherData_matches_spec (k : Option String) (w : UpstreamWeather) :
    weatherDataServe k w = weatherDataSpec k w := by
  unfold weatherDataServe weatherDataSpec
  by_cases hk : k = none ∨ k = some ""
  · rw [if_pos hk, if_pos hk]
  · rw [if_neg hk, if_neg hk]
    by_cases hc : w.cod = 200
    · rw [if_neg (not_not_intro hc), if_pos hc]
      rcases hr : w.rain1h with _ | r <;> rcases hs : w.snow1h with _ | s <;>
        simp [jsOrNum] <;>
        first
          | rfl
          | (intro h; exact h.symm)
          | (split_ifs <;> rfl)
    · rw [if_pos hc, if_neg hc]
      rcases hm : w.message with _ | m <;> simp [jsOrStr]

/-- C3 counterexample: A user whose only profile row has role
citizen is allowed by the `reports` update policies to turn their
own report from pending to verified: the ownership policy
passes even though the user is no analyst or manager. -/
theorem citizen_verifies_own_report :
    rlsCanUpdateReport [⟨"p1", "u1", "Alice", "citizen"⟩] "u1"
      ⟨"r1", "u1", "pending"⟩ ⟨"r1", "u1", "verified"⟩ = true ∧
    isAnalystOrManager [⟨"p1", "u1", "Alice", "citizen"⟩] "u1" = false ∧
    (⟨"r1", "u1", "pending"⟩ : ReportRow).status = "pending" ∧
    (⟨"r1", "u1", "verified"⟩ : ReportRow).status = "verified" := by
  decide

/-- C3 amended: Row-level security permits an update of a report
row exactly when the updater owns the row (old and new) or holds role
analyst or disaster_manager; consequently a user all of whose
profile rows are citizen can never update — in particular never
verify — a report they do not own, though they can set their own
status of their own report to verified. -/
theorem report_update_rls (profiles : List ProfileRow) (uid : String)
    (oldRow newRow : ReportRow) :
    (rlsCanUpdateReport profiles uid oldRow newRow = true ↔
      ((uid = oldRow.user_id ∧ uid = newRow.user_id) ∨
        isAnalystOrManager profiles uid = true)) ∧
    (¬ uid = oldRow.user_id →
      (∀ p ∈ profiles, p.user_id = uid → p.role = "citizen") →
      rlsCanUpdateReport profiles uid oldRow newRow = false) := by
  constructor
  · unfold rlsCanUpdateReport
    rw [Bool.and_eq_true, Bool.or_eq_true, Bool.or_eq_true,
      string_beq_decide, string_beq_decide]
    simp only [decide_eq_true_eq]
    tauto
  · intro hown hcit
    have hmgr : isAnalystOrManager profiles uid = false := by
      rw [Bool.eq_false_iff]
      intro h
      rw [isAnalystOrManager, List.any_eq_true] at h
      obtain ⟨p, hp, hcond⟩ := h
      rw [Bool.and_eq_true, Bool.or_eq_true, string_beq_decide,
        string_beq_decide, string_beq_decide] at hcond
      obtain ⟨hpu, hrole⟩ := hcond
      have hrc := hcit p hp (of_decide_eq_true hpu)
      rcases hrole with h | h
      · rw [hrc] at h
        exact absurd (of_decide_eq_true h) (by decide)
      · rw [hrc] at h
        exact absurd (of_decide_eq_true h) (by decide)
    unfold rlsCanUpdateReport
    rw [hmgr, string_beq_decide, decide_eq_false hown]
    simp

/-- Witness for C3 (amended): a citizen who does not own the report is
denied. -/
theorem report_update_rls_witness :
    rlsCanUpdateReport [⟨"p1", "u2", "Bob", "citizen"⟩] "u2"
      ⟨"r1", "u1", "pending"⟩ ⟨"r1", "u1", "verified"⟩ = false :=
  (report_update_rls [⟨"p1", "u2", "Bob", "citizen"⟩] "u2"
    ⟨"r1", "u1", "pending"⟩ ⟨"r1", "u1", "verified"⟩).2 (by decide) (by decide)

/-- C4: The `generate-predictions` upsert names the conflict target
`latitude,longitude,hazard_type`, but the migrated `predictions` table
has no unique constraint or unique index on those columns — its only
unique column set is the primary key `id`, and
`idx_predictions_location` is a plain index on `(latitude, longitude)`
— so Postgres rejects every such upsert. -/
theorem upsert_conflict_target_unsupported :
    onConflictSupported predictionsTable upsertConflictTarget = false ∧
    predictionsTable.uniqueColumnSets = [["id"]] ∧
    predictionsTable.plainIndexes.contains ["latitude", "longitude"] = true ∧
    upsertConflictTarget = ["latitude", "longitude", "hazard_type"] := by
  decide

/-- C5: Each privileged control — the Acknowledge button, the
Generate New Predictions button, and the admin-panel management view —
renders exactly for a signed-in profile whose role is analyst or
disaster_manager, and never for a citizen profile. -/
theorem role_gates_privileged_controls (p : Option ProfileRow) :
    (acknowledgeButtonRendered p = true ↔
      ∃ q, p = some q ∧ (q.role = "analyst" ∨ q.role = "disaster_manager")) ∧
    (generateButtonRendered p = true ↔
      ∃ q, p = some q ∧ (q.role = "analyst" ∨ q.role = "disaster_manager")) ∧
    (adminPanelIsAdmin p = true ↔
      ∃ q, p = some q ∧ (q.role = "analyst" ∨ q.role = "disaster_manager")) ∧
    (∀ q, p = some q → q.role = "citizen" →
      acknowledgeButtonRendered p = false ∧ generateButtonRendered p = false ∧
        adminPanelIsAdmin p = false) := by
  rcases p with _ | q
  · simp [acknowledgeButtonRendered, generateButtonRendered, adminPanelIsAdmin]
  · simp only [acknowledgeButtonRendered, generateButtonRendered,
      adminPanelIsAdmin, Bool.or_eq_true, beq_iff_eq, Option.some.injEq]
    refine ⟨?_, ?_, ?_, ?_⟩
    · constructor
      · intro h
        exact ⟨q, rfl, h⟩
      · rintro ⟨q2, rfl, h⟩
        exact h
    · constructor
      · intro h
        exact ⟨q, rfl, h⟩
      · rintro ⟨q2, rfl, h⟩
        exact h
    · constructor
      · intro h
        exact ⟨q, rfl, h⟩
      · rintro ⟨q2, rfl, h⟩
        exact h
    · rintro q2 rfl hrole
      rw [hrole]
      refine ⟨?_, ?_, ?_⟩ <;> decide

/-- Witness for C5 at a concrete citizen profile. -/
theorem role_gates_witness :
    acknowledgeButtonRendered (some ⟨"p1", "u1", "Carol", "citizen"⟩) = false ∧
    generateButtonRendered (some ⟨"p1", "u1", "Carol", "citizen"⟩) = false ∧
    adminPanelIsAdmin (some ⟨"p1", "u1", "Carol", "citizen"⟩) = false :=
  (role_gates_privileged_controls (some ⟨"p1", "u1", "Carol", "citizen"⟩)).2.2.2
    ⟨"p1", "u1", "Carol", "citizen"⟩ rfl rfl

theorem dbInvariant_empty : dbInvariant DBState.empty := by
  refine ⟨?_, ?_, ?_, ?_⟩ <;> intro x hx <;> cases hx

theorem dbStep_preserves_invariant (s : DBState) (op : DBOp)
    (h : dbInvariant s) : dbInvariant (dbStep s op) := by
  obtain ⟨hA, hR, hP, hU⟩ := h
  cases op with
  | registerUser uid pid pname =>
    simp only [dbStep]
    by_cases hg : uid ∈ s.users ∨ pid ∈ s.profiles.map (fun p => p.id) ∨
        uid ∈ s.profiles.map (fun p => p.user_id)
    · rw [if_pos hg]
      exact ⟨hA, hR, hP, hU⟩
    · rw [if_neg hg]
      push_neg at hg
      obtain ⟨hg1, hg2, hg3⟩ := hg
      refine ⟨hA, ?_, ?_, ?_⟩
      · intro r hr
        exact List.mem_cons_of_mem _ (hR r hr)
      · intro p hp
        rcases List.mem_cons.mp hp with rfl | hp
        · exact List.mem_cons_self _ _
        · exact List.mem_cons_of_mem _ (hP p hp)
      · intro u hu
        rw [List.countP_cons]
        rcases List.mem_cons.mp hu with rfl | hu
        · have hz : s.profiles.countP (fun p => decide (p.user_id = u)) = 0 := by
            rw [List.countP_eq_zero]
            intro p hp
            simp only [decide_eq_true_eq]
            intro hq
            exact hg3 (List.mem_map.mpr ⟨p, hp, hq⟩)
          rw [hz]
          simp
        · have hone := hU u hu
          rw [hone]
          have hne : ¬ (uid = u) := fun e => hg1 (e ▸ hu)
          simp [hne]
  | insertProfile p =>
    simp only [dbStep]
    by_cases hg : p.user_id ∈ s.users ∧ ¬ p.id ∈ s.profiles.map (fun q => q.id) ∧
        ¬ p.user_id ∈ s.profiles.map (fun q => q.user_id)
    · rw [if_pos hg]
      obtain ⟨hu, _, hnp⟩ := hg
      have hone := hU p.user_id hu
      have hzero : s.profiles.countP (fun q => decide (q.user_id = p.user_id)) = 0 := by
        rw [List.countP_eq_zero]
        intro q hq
        simp only [decide_eq_true_eq]
        intro he
        exact hnp (List.mem_map.mpr ⟨q, hq, he⟩)
      rw [hone] at hzero
      exact absurd hzero one_ne_zero
    · rw [if_neg hg]
      exact ⟨hA, hR, hP, hU⟩
  | insertReport r =>
    simp only [dbStep]
    by_cases hg : r.user_id ∈ s.users ∧ ¬ r.id ∈ s.reports.map (fun q => q.id)
    · rw [if_pos hg]
      refine ⟨hA, ?_, hP, hU⟩
      intro q hq
      rcases List.mem_cons.mp hq with rfl | hq
      · exact hg.1
      · exact hR q hq
    · rw [if_neg hg]
      exact ⟨hA, hR, hP, hU⟩
  | insertPrediction p =>
    simp only [dbStep]
    by_cases hg : ¬ p.id ∈ s.predictions.map (fun q => q.id)
    · rw [if_pos hg]
      refine ⟨?_, hR, hP, hU⟩
      intro a ha
      exact List.mem_cons_of_mem _ (hA a ha)
    · rw [if_neg hg]
      exact ⟨hA, hR, hP, hU⟩
  | insertAlert a =>
    simp only [dbStep]
    by_cases hg : a.prediction_id ∈ s.predictions.map (fun q => q.id) ∧
        ¬ a.id ∈ s.prediction_alerts.map (fun q => q.id)
    · rw [if_pos hg]
      refine ⟨?_, hR, hP, hU⟩
      intro b hb
      rcases List.mem_cons.mp hb with rfl | hb
      · exact hg.1
      · exact hA b hb
    · rw [if_neg hg]
      exact ⟨hA, hR, hP, hU⟩
  | deletePrediction pid =>
    simp only [dbStep]
    refine ⟨?_, hR, hP, hU⟩
    intro a ha
    obtain ⟨ha1, ha2⟩ := List.mem_filter.mp ha
    have hne : ¬ a.prediction_id = pid := of_decide_eq_true ha2
    obtain ⟨q, hq, hqid⟩ := List.mem_map.mp (hA a ha1)
    refine List.mem_map.mpr ⟨q, List.mem_filter.mpr ⟨hq, ?_⟩, hqid⟩
    simp only [decide_eq_true_eq]
    intro he
    exact hne (by rw [← hqid]; exact he)
  | deleteUser uid =>
    simp only [dbStep]
    refine ⟨hA, ?_, ?_, ?_⟩
    · intro r hr
      obtain ⟨hr1, hr2⟩ := List.mem_filter.mp hr
      have hne : ¬ r.user_id = uid := of_decide_eq_true hr2
      exact List.mem_filter.mpr ⟨hR r hr1, decide_eq_true hne⟩
    · intro p hp
      obtain ⟨hp1, hp2⟩ := List.mem_filter.mp hp
      have hne : ¬ p.user_id = uid := of_decide_eq_true hp2
      exact List.mem_filter.mpr ⟨hP p hp1, decide_eq_true hne⟩
    · intro u hu
      obtain ⟨hu1, hu2⟩ := List.mem_filter.mp hu
      have hne : ¬ u = uid := of_decide_eq_true hu2
      have hcong : s.profiles.countP
          (fun a => decide (a.user_id = u) && decide (¬ a.user_id = uid)) =
          s.profiles.countP (fun a => decide (a.user_id = u)) := by
        refine List.countP_congr ?_
        intro a _
        simp only [Bool.and_eq_true, decide_eq_true_eq]
        constructor
        · intro hx
          exact hx.1
        · intro hx
          exact ⟨hx, fun e => hne (by rw [← hx]; exact e)⟩
      rw [List.countP_filter, hcong]
      exact hU u hu1
  | updateProfileRole uid role =>
    simp only [dbStep]
    have huid : ∀ q : ProfileRow,
        ((if q.user_id = uid then { q with role := role } else q) : ProfileRow).user_id =
          q.user_id := by
      intro q
      split_ifs <;> rfl
    refine ⟨hA, hR, ?_, ?_⟩
    · intro p hp
      obtain ⟨q, hq, rfl⟩ := List.mem_map.mp hp
      rw [huid q]
      exact hP q hq
    · intro u hu
      rw [List.countP_map]
      have hcong : s.profiles.countP
          ((fun a => decide (a.user_id = u)) ∘
            (fun q => if q.user_id = uid then { q with role := role } else q)) =
          s.profiles.countP (fun a => decide (a.user_id = u)) := by
        refine List.countP_congr ?_
        intro a _
        simp only [Function.comp_apply, decide_eq_true_eq, huid a]
      rw [hcong]
      exact hU u hu

theorem dbRun_invariant (ops : List DBOp) : dbInvariant (dbRun ops) := by
  unfold dbRun
  suffices h : ∀ (l : List DBOp) (s : DBState), dbInvariant s →
      dbInvariant (l.foldl dbStep s) by
    exact h ops DBState.empty dbInvariant_empty
  intro l
  induction l with
  | nil => intro s hs; exact hs
  | cons op rest ih =>
    intro s hs
    rw [List.foldl_cons]
    exact ih _ (dbStep_preserves_invariant s op hs)

/-- C9: The declared schema has the five tables, all with row-level
security; `prediction_alerts.prediction_id` references `predictions`
with cascade, `reports.user_id` references auth users with cascade, and
`profiles.user_id` is unique.  Registration either fails a constraint
or inserts exactly the one citizen profile row of the new user, and
after any sequence of operations every alert references an existing
prediction, every report and profile an existing auth user, and every
auth user has exactly one profile. -/
theorem schema_and_integrity :
    (schemaTables.map (fun t => t.tname) =
        ["profiles", "reports", "social_media_posts", "predictions",
          "prediction_alerts"] ∧
      schemaTables.all (fun t => t.rlsEnabled) = true ∧
      predictionAlertsTable.foreignKeys.contains
        ⟨"prediction_id", "predictions", true⟩ = true ∧
      reportsTable.foreignKeys.contains ⟨"user_id", "auth.users", true⟩ = true ∧
      profilesTable.uniqueColumnSets.contains ["user_id"] = true) ∧
    (∀ (s : DBState) (uid pid pname : String),
      dbStep s (.registerUser uid pid pname) = s ∨
      (dbStep s (.registerUser uid pid pname)).profiles =
        ⟨pid, uid, pname, "citizen"⟩ :: s.profiles) ∧
    (∀ ops : List DBOp, dbInvariant (dbRun ops)) := by
  refine ⟨by decide, ?_, dbRun_invariant⟩
  intro s uid pid pname
  simp only [dbStep]
  by_cases hg : uid ∈ s.users ∨ pid ∈ s.profiles.map (fun p => p.id) ∨
      uid ∈ s.profiles.map (fun p => p.user_id)
  · rw [if_pos hg]
    exact Or.inl rfl
  · rw [if_neg hg]
    exact Or.inr rfl

/-- Witness for C9 on a concrete operation sequence exercising
registration, prediction and alert insertion, cascade deletion of a
prediction, and cascade deletion of a user. -/
theorem schema_and_integrity_witness :
    dbInvariant (dbRun
      [ DBOp.registerUser "u1" "p1" "Alice"
      , DBOp.insertPrediction ⟨"pr1"⟩
      , DBOp.insertAlert ⟨"al1", "pr1"⟩
      , DBOp.deletePrediction "pr1"
      , DBOp.deleteUser "u1" ]) :=
  schema_and_integrity.2.2
    [ DBOp.registerUser "u1" "p1" "Alice"
    , DBOp.insertPrediction ⟨"pr1"⟩
    , DBOp.insertAlert ⟨"al1", "pr1"⟩
    , DBOp.deletePrediction "pr1"
    , DBOp.deleteUser "u1" ]

end JalVaarta
